import Mathlib

/-!
Shallow embedding of the BaileysHelper interactive-button core
(`src/helpers/buttons.ts` and `src/types/validation.ts`).

JavaScript values are modelled by the inductive `JSValue`; numbers are
restricted to integers (no claim touches non-integral numbers).  Field
access, truthiness, `typeof`, string coercion and `JSON.stringify` follow
the JavaScript semantics the source relies on.  Functions that can throw
a `TypeError` at runtime (property access on `null`/`undefined`, calling
`forEach` on a non-array) are embedded in the `Except Unit` monad.
-/

/-- A JavaScript runtime value (numbers restricted to integers). -/
inductive JSValue : Type where
  | null : JSValue
  | undefined : JSValue
  | bool : Bool → JSValue
  | num : Int → JSValue
  | str : String → JSValue
  | obj : List (String × JSValue) → JSValue
  | arr : List JSValue → JSValue
deriving Repr

/-- JavaScript truthiness: `null`, `undefined`, `false`, `0` and `""` are
falsy; every object and array is truthy. -/
def truthy : JSValue → Bool
  | .null => false
  | .undefined => false
  | .bool b => b
  | .num n => decide (n ≠ 0)
  | .str s => decide (s ≠ "")
  | .obj _ => true
  | .arr _ => true

/-- JavaScript `typeof` (note `typeof null == "object"`, and arrays are
`"object"` as well). -/
def jsTypeof : JSValue → String
  | .null => "object"
  | .undefined => "undefined"
  | .bool _ => "boolean"
  | .num _ => "number"
  | .str _ => "string"
  | .obj _ => "object"
  | .arr _ => "object"

/-- Total property access: objects look the key up (first binding wins),
every other non-throwing receiver yields `undefined`.  (Access on `null`
or `undefined` throws in JavaScript; that case is handled by `getF`.) -/
def getFieldD : JSValue → String → JSValue
  | .obj fs, k =>
    match fs.lookup k with
    | some v => v
    | none => .undefined
  | _, _ => .undefined

/-- Property access as performed by the source at places where the
receiver may be `null`/`undefined`: throwing a `TypeError` there. -/
def getF (v : JSValue) (k : String) : Except Unit JSValue :=
  match v with
  | .null => .error ()
  | .undefined => .error ()
  | _ => .ok (getFieldD v k)

/-- JSON string escaping as performed by `JSON.stringify`. -/
def jsonEscapeChar (c : Char) : String :=
  if c = '"' then "\\\""
  else if c = '\\' then "\\\\"
  else if c = '\n' then "\\n"
  else if c = '\t' then "\\t"
  else if c = '\r' then "\\r"
  else if c = (Char.ofNat 8) then "\\b"
  else if c = (Char.ofNat 12) then "\\f"
  else if c.toNat < 32 then
    "\\u00" ++ (Nat.toDigits 16 c.toNat).asString.leftpad 2 '0'
  else String.singleton c

/-- Escape a whole string for JSON. -/
def jsonEscape (s : String) : String :=
  String.join (s.toList.map jsonEscapeChar)

mutual

/-- Embedding of `JSON.stringify`: `none` means the JavaScript result `undefined`
(only produced for `undefined` itself in this model); inside an object a
property whose value stringifies to `undefined` is dropped, inside an
array it becomes `null`. -/
def jsonStringify : JSValue → Option String
  | .null => some "null"
  | .undefined => none
  | .bool b => some (if b then "true" else "false")
  | .num n => some (toString n)
  | .str s => some ("\"" ++ jsonEscape s ++ "\"")
  | .arr xs => some ("[" ++ String.intercalate "," (jsonStringifyElems xs) ++ "]")
  | .obj fs => some ("\x7b" ++ String.intercalate "," (jsonStringifyFields fs) ++ "\x7d")

/-- Array elements: `undefined` serializes as `null`. -/
def jsonStringifyElems : List JSValue → List String
  | [] => []
  | x :: xs =>
    (match jsonStringify x with
     | some s => s
     | none => "null") :: jsonStringifyElems xs

/-- Object properties: `undefined`-valued properties are dropped. -/
def jsonStringifyFields : List (String × JSValue) → List String
  | [] => []
  | (k, v) :: fs =>
    match jsonStringify v with
    | some s => ("\"" ++ jsonEscape k ++ "\":" ++ s) :: jsonStringifyFields fs
    | none => jsonStringifyFields fs

end

/-- Since `JSON.stringify` of an object always yields a string; this is the
variant the normalizer uses (its argument is always an object literal). -/
def jsonStringifyD (v : JSValue) : String :=
  match jsonStringify v with
  | some s => s
  | none => "undefined"

mutual

/-- JavaScript `String(v)` coercion for the values of this model
(arrays join their elements with `,`, objects print as
`[object Object]`). -/
def jsToString : JSValue → String
  | .null => "null"
  | .undefined => "undefined"
  | .bool b => if b then "true" else "false"
  | .num n => toString n
  | .str s => s
  | .obj _ => "[object Object]"
  | .arr xs => String.intercalate "," (jsToStringElems xs)

/-- Array elements under `Array.prototype.join`: `null` and `undefined`
become the empty string. -/
def jsToStringElems : List JSValue → List String
  | [] => []
  | x :: xs =>
    (match x with
     | .null => ""
     | .undefined => ""
     | v => jsToString v) :: jsToStringElems xs

end

/-- The E.164-like pattern `^\+?[1-9]\d\x7b1,14\x7d$` from the source:
an optional leading `+`, a first digit in `1`–`9`, then 1 to 14 digits. -/
def matchesE164 (s : String) : Bool :=
  let cs := s.toList
  let cs := if cs.head? = some '+' then cs.tail else cs
  match cs with
  | [] => false
  | c :: rest =>
    decide ('1' ≤ c) && decide (c ≤ '9') &&
    rest.all Char.isDigit &&
    decide (1 ≤ rest.length) && decide (rest.length ≤ 14)

/-- The classifier `getButtonType` (src/helpers/buttons.ts).  An explicit truthy `type`
field is returned verbatim (hence the result is a `JSValue`, as the
source takes `any` and can return whatever the caller stored there);
otherwise the first truthy field of a fixed chain decides, defaulting to
`quick_reply`. -/
def getButtonType (button : JSValue) : JSValue :=
  if ¬ (truthy button = true) ∨ jsTypeof button ≠ "object" then .str "quick_reply"
  else if truthy (getFieldD button "type") then getFieldD button "type"
  else if truthy (getFieldD button "url") then .str "cta_url"
  else if truthy (getFieldD button "copyText") then .str "cta_copy"
  else if truthy (getFieldD button "phoneNumber") then .str "cta_call"
  else if truthy (getFieldD button "catalogLink") then .str "cta_catalog"
  else if truthy (getFieldD button "reminderText") then .str "cta_reminder"
  else if truthy (getFieldD button "reminderId") then .str "cta_cancel_reminder"
  else if truthy (getFieldD button "addressId") then .str "address_message"
  else if truthy (getFieldD button "options") then .str "single_select"
  else .str "quick_reply"

/-- Body of the `buttons.map` callback inside `buildInteractiveButtons`:
the four normalization rules, checked in order (all guards are JavaScript
truthiness tests with `&&` short-circuiting). -/
def normalizeButton (b : JSValue) : JSValue :=
  if truthy b && truthy (getFieldD b "name") && truthy (getFieldD b "buttonParamsJson") then
    b
  else if truthy b && truthy (getFieldD b "id") && truthy (getFieldD b "title") then
    let buttonParams : JSValue := .obj
      [("id", getFieldD b "id"),
       ("title", getFieldD b "title"),
       ("subtitle", if truthy (getFieldD b "subtitle") then getFieldD b "subtitle" else .null),
       ("disabled", if truthy (getFieldD b "disabled") then getFieldD b "disabled" else .bool false)]
    .obj [("name", getButtonType b), ("buttonParamsJson", .str (jsonStringifyD buttonParams))]
  else if truthy b && truthy (getFieldD b "buttonId") && truthy (getFieldD b "buttonText") then
    let bt := getFieldD b "buttonText"
    let buttonParams : JSValue := .obj
      [("id", getFieldD b "buttonId"),
       ("title", if truthy (getFieldD bt "displayText") then getFieldD bt "displayText" else bt),
       ("subtitle", if truthy (getFieldD b "subtitle") then getFieldD b "subtitle" else .null),
       ("disabled", if truthy (getFieldD b "disabled") then getFieldD b "disabled" else .bool false)]
    .obj [("name", getButtonType b), ("buttonParamsJson", .str (jsonStringifyD buttonParams))]
  else
    b

/-- The normalizer `buildInteractiveButtons` (src/helpers/buttons.ts): normalize each
entry in order; order and count are preserved by `map`. -/
def buildInteractiveButtons (buttons : List JSValue) : List JSValue :=
  buttons.map normalizeButton

/-- The id check `isValidButtonId` (src/helpers/buttons.ts): a string of length 1–64. -/
def isValidButtonId (id : JSValue) : Bool :=
  match id with
  | .str s => decide (0 < s.length) && decide (s.length ≤ 64)
  | _ => false

/-- A `ValidationError` record `\x7bpath, message, expected, value\x7d` as pushed
by `validateInteractiveMessage`. -/
structure VError where
  path : String
  message : String
  expected : JSValue
  value : JSValue
deriving Repr

/-- A `ValidationWarning` record (never produced by the validator). -/
structure VWarning where
  path : String
  message : String
  suggestion : Option String
deriving Repr

/-- The `ValidationResult` record returned by `validateInteractiveMessage`. -/
structure ValidationResult where
  isValid : Bool
  errors : List VError
  warnings : List VWarning
deriving Repr

/-- The id rule: `isValidButtonId(button.id)`. -/
def idRuleOk (button : JSValue) : Bool :=
  isValidButtonId (getFieldD button "id")

/-- The title rule: `!(!button.title || typeof button.title !== "string")`. -/
def titleRuleOk (button : JSValue) : Bool :=
  truthy (getFieldD button "title") && decide (jsTypeof (getFieldD button "title") = "string")

/-- The url rule of the `cta_url` case. -/
def urlRuleOk (button : JSValue) : Bool :=
  truthy (getFieldD button "url") && decide (jsTypeof (getFieldD button "url") = "string")

/-- The phone rule of the `cta_call` case
(`button.phoneNumber && /^\+?[1-9]\d\x7b1,14\x7d$/.test(button.phoneNumber)`). -/
def phoneRuleOk (button : JSValue) : Bool :=
  truthy (getFieldD button "phoneNumber") &&
    matchesE164 (jsToString (getFieldD button "phoneNumber"))

/-- The copyText rule of the `cta_copy` case. -/
def copyRuleOk (button : JSValue) : Bool :=
  truthy (getFieldD button "copyText") && decide (jsTypeof (getFieldD button "copyText") = "string")

/-- The type-specific rule selected by the `switch (getButtonType(button))`
of the validator; a non-string classification matches no `case` and types
other than `cta_url`/`cta_call`/`cta_copy` are unchecked. -/
def typeRuleOk (button : JSValue) : Bool :=
  match getButtonType button with
  | .str s =>
    if s = "cta_url" then urlRuleOk button
    else if s = "cta_call" then phoneRuleOk button
    else if s = "cta_copy" then copyRuleOk button
    else true
  | _ => true

/-- A button violates one of the per-button rules of the validator. -/
def violatesButtonRule (button : JSValue) : Bool :=
  !idRuleOk button || !titleRuleOk button || !typeRuleOk button

/-- The `buttons[i].id` check of the validator. -/
def idErrsOf (button : JSValue) (index : Nat) : List VError :=
  if idRuleOk button then []
  else [⟨"buttons[" ++ toString index ++ "].id",
         "Button ID must be a non-empty string (max 64 chars)",
         .str "string (1-64 chars)", getFieldD button "id"⟩]

/-- The `buttons[i].title` check of the validator. -/
def titleErrsOf (button : JSValue) (index : Nat) : List VError :=
  if titleRuleOk button then []
  else [⟨"buttons[" ++ toString index ++ "].title",
         "Button title is required and must be a string",
         .str "string", getFieldD button "title"⟩]

/-- The type-specific `switch (getButtonType(button))` checks of the
validator. -/
def typeErrsOf (button : JSValue) (index : Nat) : List VError :=
  match getButtonType button with
  | .str s =>
    if s = "cta_url" then
      if urlRuleOk button then []
      else [⟨"buttons[" ++ toString index ++ "].url",
             "URL button requires a valid URL string",
             .str "string (URL format)", getFieldD button "url"⟩]
    else if s = "cta_call" then
      if phoneRuleOk button then []
      else [⟨"buttons[" ++ toString index ++ "].phoneNumber",
             "Call button requires a valid phone number",
             .str "string (E.164 format)", getFieldD button "phoneNumber"⟩]
    else if s = "cta_copy" then
      if copyRuleOk button then []
      else [⟨"buttons[" ++ toString index ++ "].copyText",
             "Copy button requires copyText string",
             .str "string", getFieldD button "copyText"⟩]
    else []
  | _ => []

/-- Per-button checks: the body of the `buttons.forEach` callback in
`validateInteractiveMessage`, in source order (id, title, type-specific).
The first action of the callback is the property access `button.id`, which
throws a `TypeError` exactly when the element is `null`/`undefined`; all
later operations on a non-`null` element are total. -/
def buttonErrors (button : JSValue) (index : Nat) : Except Unit (List VError) :=
  match button with
  | .null => .error ()
  | .undefined => .error ()
  | _ => .ok (idErrsOf button index ++ titleErrsOf button index ++ typeErrsOf button index)

/-- The `forEach` loop of the validator, run over all buttons in order;
a throw on any element aborts the whole call. -/
def buttonErrorsList : List JSValue → Nat → Except Unit (List (List VError))
  | [], _ => .ok []
  | b :: bs, i =>
    match buttonErrors b i with
    | .error e => .error e
    | .ok l =>
      match buttonErrorsList bs (i + 1) with
      | .error e => .error e
      | .ok ls => .ok (l :: ls)

/-- The `body` check of the validator
(`!config.body || typeof config.body !== "string"`). -/
def bodyErrsOf (body : JSValue) : List VError :=
  if truthy body && decide (jsTypeof body = "string") then []
  else [⟨"body", "Body text is required and must be a string", .str "string", body⟩]

/-- The structural `buttons` check of the validator
(`!Array.isArray(buttons) || buttons.length === 0`). -/
def arrayErrsOf (buttons : JSValue) : List VError :=
  match buttons with
  | .arr bs =>
    if bs.length = 0 then
      [⟨"buttons", "At least one button is required",
        .str "array with minimum 1 item", buttons⟩]
    else []
  | _ =>
    [⟨"buttons", "At least one button is required",
      .str "array with minimum 1 item", buttons⟩]

/-- The validator `validateInteractiveMessage` (src/helpers/buttons.ts).  The source
pushes a structural error for a non-array `buttons` argument and then
unconditionally calls `buttons.forEach`, which throws a `TypeError` for
any non-array — embedded as `Except.error` (the errors pushed before the
throw are lost, as in JavaScript). -/
def validateInteractiveMessage (config buttons : JSValue) : Except Unit ValidationResult :=
  match getF config "body" with
  | .error e => .error e
  | .ok body =>
    match buttons with
    | .arr bs =>
      match buttonErrorsList bs 0 with
      | .error e => .error e
      | .ok perButton =>
        let errors := bodyErrsOf body ++ arrayErrsOf buttons ++ perButton.flatten
        .ok ⟨errors.isEmpty, errors, []⟩
    | _ => .error ()

/-- The class `InteractiveValidationError` (src/types/validation.ts).  The TS
field `example?` is called `exampleV` here because `example` is a Lean
keyword. -/
structure InteractiveValidationError where
  message : String
  context : String
  errors : List VError
  warnings : List VWarning
  exampleV : Option JSValue
deriving Repr

/-- The method `addContext` (src/types/validation.ts): builds a fresh error via the
constructor, extending message and context with the template literals
used by the source. -/
def InteractiveValidationError.addContext
    (e : InteractiveValidationError) (ctx : String) : InteractiveValidationError :=
  ⟨e.message ++ " in " ++ ctx, e.context ++ " -> " ++ ctx, e.errors, e.warnings, e.exampleV⟩

/-- The `headerMedia` sub-object of `InteractiveMessageConfig`
(src/types/index.ts); `mediaType` is kept as a string so the defensive fallback of the assembler for unrecognized media types is statable. -/
structure HeaderMedia where
  mediaType : String
  mediaUrl : String
  mediaCaption : Option String
deriving Repr, DecidableEq

/-- The config type `InteractiveMessageConfig` (src/types/index.ts). -/
structure InteractiveMessageConfig where
  body : String
  footer : Option String := none
  headerType : Option Int := none
  headerText : Option String := none
  headerMedia : Option HeaderMedia := none
deriving Repr, DecidableEq

/-- A `\x7btext\x7d` wrapper as used for body and footer. -/
structure TextObj where
  text : String
deriving Repr, DecidableEq

/-- The `media` sub-object of an assembled header. -/
structure MediaObj where
  url : String
  caption : String
deriving Repr, DecidableEq

/-- An assembled `messageParams.header`. -/
structure HeaderObj where
  type : Int
  text : String
  media : Option MediaObj
deriving Repr, DecidableEq

/-- A button entry of the assembled envelope: the re-projection to
exactly `\x7bname, buttonParamsJson\x7d`. -/
structure NativeFlowEntry where
  name : JSValue
  buttonParamsJson : JSValue
deriving Repr

/-- The assembled `messageParams`. -/
structure MessageParams where
  body : TextObj
  footer : Option TextObj
  header : Option HeaderObj
deriving Repr

/-- The assembled envelope (`interactive.nativeFlow`). -/
structure MessageContent where
  buttons : List NativeFlowEntry
  messageParams : MessageParams
deriving Repr

/-- The assembler `buildMessageContent` (src/helpers/buttons.ts).  The source first
sets a text header when `config.headerText` is truthy (with
`config.headerType || 1`), then overwrites it whenever
`config.headerMedia` is set. -/
def buildMessageContent (config : InteractiveMessageConfig) (buttons : List JSValue) :
    MessageContent :=
  let textHeader : Option HeaderObj :=
    match config.headerText with
    | some t =>
      if t ≠ "" then
        some ⟨(match config.headerType with
               | some n => if n ≠ 0 then n else 1
               | none => 1), t, none⟩
      else none
    | none => none
  let header : Option HeaderObj :=
    match config.headerMedia with
    | some m =>
      some ⟨(if m.mediaType = "image" then 1 else if m.mediaType = "video" then 2 else 3),
            (match config.headerText with | some t => t | none => ""),
            some ⟨m.mediaUrl, (match m.mediaCaption with | some c => c | none => "")⟩⟩
    | none => textHeader
  let footer : Option TextObj :=
    match config.footer with
    | some f => if f ≠ "" then some ⟨f⟩ else none
    | none => none
  ⟨buttons.map (fun b => ⟨getFieldD b "name", getFieldD b "buttonParamsJson"⟩),
   ⟨⟨config.body⟩, footer, header⟩⟩

/-- Field presence (`k in v` for an object), as opposed to truthiness. -/
def hasField (v : JSValue) (k : String) : Bool :=
  match v with
  | .obj fs => (fs.lookup k).isSome
  | _ => false

/-- The ordered classification rule table of spec §4.1: pairs of
(field, type tag), in the fixed tie-break order. -/
def buttonTypeRules : List (String × String) :=
  [("url", "cta_url"), ("copyText", "cta_copy"), ("phoneNumber", "cta_call"),
   ("catalogLink", "cta_catalog"), ("reminderText", "cta_reminder"),
   ("reminderId", "cta_cancel_reminder"), ("addressId", "address_message"),
   ("options", "single_select")]

/-- Modelled from the spec: the reference classifier of claim C5 read
literally — an explicit `type` field that is *present* is returned
verbatim, and the ordered checks are field-*presence* checks. -/
def getButtonTypeSpec (button : JSValue) : JSValue :=
  if ¬ (truthy button = true) ∨ jsTypeof button ≠ "object" then .str "quick_reply"
  else if hasField button "type" then getFieldD button "type"
  else
    match buttonTypeRules.find? (fun r => hasField button r.1) with
    | some r => .str r.2
    | none => .str "quick_reply"

/-- Modelled from the spec, amended: the same ordered rule table, but
with every check a JavaScript truthiness test (a present-but-falsy field
does not fire), matching the source. -/
def getButtonTypeTable (button : JSValue) : JSValue :=
  if ¬ (truthy button = true) ∨ jsTypeof button ≠ "object" then .str "quick_reply"
  else if truthy (getFieldD button "type") then getFieldD button "type"
  else
    match buttonTypeRules.find? (fun r => truthy (getFieldD button r.1)) with
    | some r => .str r.2
    | none => .str "quick_reply"

/-- Claim C5 (counterexample): on a button whose `type` field is present
but falsy (the empty string) alongside a truthy `url`, the source ignores
`type` and classifies `cta_url`, while the presence-based
reference definition of the claim returns the empty `type` verbatim. -/
theorem C5_counterexample :
    getButtonType (.obj [("type", .str ""), ("url", .str "u")]) = .str "cta_url" ∧
    getButtonTypeSpec (.obj [("type", .str ""), ("url", .str "u")]) = .str "" ∧
    getButtonType (.obj [("type", .str ""), ("url", .str "u")]) ≠
      getButtonTypeSpec (.obj [("type", .str ""), ("url", .str "u")]) := by
  refine ⟨rfl, rfl, fun h => ?_⟩
  rw [(rfl : getButtonType (.obj [("type", .str ""), ("url", .str "u")]) = .str "cta_url"),
      (rfl : getButtonTypeSpec (.obj [("type", .str ""), ("url", .str "u")]) = .str "")] at h
  injection h with hs
  exact absurd hs (by decide)

/-- Claim C5 (amended): `getButtonType` equals the reference rule-table
classifier once every "presence" check is read as a JavaScript
truthiness test: non-objects (and `null`) give `quick_reply`, a *truthy*
explicit `type` is returned verbatim, otherwise the first field in the
fixed order url, copyText, phoneNumber, catalogLink, reminderText,
reminderId, addressId, options with a truthy value decides, defaulting
to `quick_reply`; an input carrying both (truthy) `url` and
`phoneNumber` is classified `cta_url`, and the function is total. -/
theorem C5_classifier_eq_rule_table (b : JSValue) :
    getButtonType b = getButtonTypeTable b := by
  by_cases h0 : ¬ (truthy b = true) ∨ jsTypeof b ≠ "object"
  · simp only [getButtonType, getButtonTypeTable, if_pos h0]
  · by_cases h1 : truthy (getFieldD b "type") = true
    · simp [getButtonType, getButtonTypeTable, h0, h1]
    · by_cases h2 : truthy (getFieldD b "url") = true
      · simp [getButtonType, getButtonTypeTable, buttonTypeRules, List.find?, h0, h1, h2]
      · by_cases h3 : truthy (getFieldD b "copyText") = true
        · simp [getButtonType, getButtonTypeTable, buttonTypeRules, List.find?, h0, h1, h2, h3]
        · by_cases h4 : truthy (getFieldD b "phoneNumber") = true
          · simp [getButtonType, getButtonTypeTable, buttonTypeRules, List.find?, h0, h1, h2, h3, h4]
          · by_cases h5 : truthy (getFieldD b "catalogLink") = true
            · simp [getButtonType, getButtonTypeTable, buttonTypeRules, List.find?, h0, h1, h2, h3, h4, h5]
            · by_cases h6 : truthy (getFieldD b "reminderText") = true
              · simp [getButtonType, getButtonTypeTable, buttonTypeRules, List.find?, h0, h1, h2, h3, h4, h5, h6]
              · by_cases h7 : truthy (getFieldD b "reminderId") = true
                · simp [getButtonType, getButtonTypeTable, buttonTypeRules, List.find?, h0, h1, h2, h3, h4, h5, h6, h7]
                · by_cases h8 : truthy (getFieldD b "addressId") = true
                  · simp [getButtonType, getButtonTypeTable, buttonTypeRules, List.find?, h0, h1, h2, h3, h4, h5, h6, h7, h8]
                  · by_cases h9 : truthy (getFieldD b "options") = true
                    · simp [getButtonType, getButtonTypeTable, buttonTypeRules, List.find?,
                            h0, h1, h2, h3, h4, h5, h6, h7, h8, h9]
                    · simp [getButtonType, getButtonTypeTable, buttonTypeRules, List.find?,
                            h0, h1, h2, h3, h4, h5, h6, h7, h8, h9]

/-- Claim C1: the spec says the validator never raises, but calling it
with a non-array `buttons` argument (here `null`, with a perfectly valid
config) reaches `buttons.forEach` and throws a `TypeError` — embedded as
`Except.error` — instead of returning the `ValidationResult` whose
`buttons` structural error the source had just pushed. -/
theorem C1_validator_throws_on_null_buttons :
    validateInteractiveMessage (.obj [("body", .str "x")]) .null = .error () := rfl

/-- Claim C9: `addContext` returns a new error whose message is extended
with " in ctx", whose context is extended with " -> ctx", and which
carries the same errors, warnings and example; the original error is
untouched (the embedding is a pure value, and the source constructs a
fresh object reading only `this`). -/
theorem C9_addContext_extends (e : InteractiveValidationError) (ctx : String) :
    (e.addContext ctx).message = e.message ++ " in " ++ ctx ∧
    (e.addContext ctx).context = e.context ++ " -> " ++ ctx ∧
    (e.addContext ctx).errors = e.errors ∧
    (e.addContext ctx).warnings = e.warnings ∧
    (e.addContext ctx).exampleV = e.exampleV :=
  ⟨rfl, rfl, rfl, rfl, rfl⟩

/-- Claim C3 (counterexample): with `headerText = "H"`, no header media
and `headerType = 0`, the source computes `config.headerType || 1`, so
the type of the assembled header is `1`, not the `0` demanded by the
`headerType ?? 1` formula of the claim. -/
theorem C3_counterexample :
    (buildMessageContent ⟨"b", none, some 0, some "H", none⟩ []).messageParams.header =
      some ⟨1, "H", none⟩ ∧
    (buildMessageContent ⟨"b", none, some 0, some "H", none⟩ []).messageParams.header ≠
      some ⟨0, "H", none⟩ :=
  ⟨rfl, by decide⟩

/-- Claim C3 (amended): for every config with a truthy `headerText` and
no `headerMedia`, the assembled header is
`\x7btype: config.headerType || 1, text: config.headerText\x7d` — the default
`1` is used when `headerType` is absent *or* `0` (any falsy value), and
`headerType` itself is used only when it is a nonzero number. -/
theorem C3_text_header (c : InteractiveMessageConfig) (bs : List JSValue) (t : String)
    (ht : c.headerText = some t) (hne : t ≠ "") (hm : c.headerMedia = none) :
    (buildMessageContent c bs).messageParams.header =
      some ⟨(match c.headerType with
             | some n => if n = 0 then 1 else n
             | none => 1), t, none⟩ := by
  simp only [buildMessageContent, ht, hm, hne, ite_not]
  cases hy : c.headerType with
  | none => simp
  | some n =>
    by_cases hn : n = 0
    · simp [hn]
    · simp [hn]

/-- Witness for C3_text_header at a concrete config. -/
theorem C3_text_header_witness :
    (⟨"b", none, some 7, some "H", none⟩ : InteractiveMessageConfig).headerText = some "H" ∧
    (buildMessageContent ⟨"b", none, some 7, some "H", none⟩ []).messageParams.header =
      some ⟨7, "H", none⟩ :=
  ⟨rfl, C3_text_header ⟨"b", none, some 7, some "H", none⟩ [] "H" rfl (by decide) rfl⟩

/-- Claim C8: whenever `headerMedia` is set it wins over any plain text
header: the assembled header is
`\x7btype: image→1 / video→2 / document→3 (default 3), text: headerText ?? "",
media: \x7burl: mediaUrl, caption: mediaCaption ?? ""\x7d\x7d`. -/
theorem C8_media_header (c : InteractiveMessageConfig) (m : HeaderMedia) (bs : List JSValue)
    (hm : c.headerMedia = some m) :
    (buildMessageContent c bs).messageParams.header =
      some ⟨(if m.mediaType = "image" then 1 else if m.mediaType = "video" then 2 else 3),
            c.headerText.getD "",
            some ⟨m.mediaUrl, m.mediaCaption.getD ""⟩⟩ := by
  simp only [buildMessageContent, hm]
  cases c.headerText <;> cases m.mediaCaption <;> rfl

/-- Witness for C8_media_header: the scenario stated in the claim,
`config = \x7bbody:"b", headerText:"H", headerMedia:\x7bmediaType:"video",
mediaUrl:"u"\x7d\x7d` yields header type `2` with the media field present. -/
theorem C8_media_header_witness :
    (⟨"b", none, none, some "H", some ⟨"video", "u", none⟩⟩ :
        InteractiveMessageConfig).headerMedia = some ⟨"video", "u", none⟩ ∧
    (buildMessageContent ⟨"b", none, none, some "H", some ⟨"video", "u", none⟩⟩
        []).messageParams.header = some ⟨2, "H", some ⟨"u", ""⟩⟩ :=
  ⟨rfl, C8_media_header ⟨"b", none, none, some "H", some ⟨"video", "u", none⟩⟩
    ⟨"video", "u", none⟩ [] rfl⟩

/-- The parameter object built by the simple-legacy normalization rule,
with the `||` defaults of the source: a falsy `subtitle` becomes `null`, a
falsy `disabled` becomes `false`. -/
def legacyButtonParams (b : JSValue) : JSValue :=
  .obj [("id", getFieldD b "id"),
        ("title", getFieldD b "title"),
        ("subtitle", if truthy (getFieldD b "subtitle") then getFieldD b "subtitle" else .null),
        ("disabled", if truthy (getFieldD b "disabled") then getFieldD b "disabled" else .bool false)]

/-- Claim C4 (counterexample): an entry with `subtitle` equal to the
empty string is serialized with `subtitle: null` — the source computes
`subtitle || null`, so the falsy `""` becomes `null`, contradicting the
`subtitle ?? null` of the claim, which would keep `""`. -/
theorem C4_counterexample :
    buildInteractiveButtons [.obj [("id", .str "a"), ("title", .str "T"), ("subtitle", .str "")]] =
      [.obj [("name", .str "quick_reply"),
             ("buttonParamsJson",
              .str "\x7b\"id\":\"a\",\"title\":\"T\",\"subtitle\":null,\"disabled\":false\x7d")]] ∧
    ("\x7b\"id\":\"a\",\"title\":\"T\",\"subtitle\":null,\"disabled\":false\x7d" : String) ≠
      "\x7b\"id\":\"a\",\"title\":\"T\",\"subtitle\":\"\",\"disabled\":false\x7d" :=
  ⟨rfl, by decide⟩

/-- Claim C4 (amended): a non-canonical entry with truthy `id` and
`title` is normalized to `\x7bname: <classified type>, buttonParamsJson:
JSON of \x7bid, title, subtitle: subtitle || null, disabled:
disabled || false\x7d\x7d` — any falsy `subtitle` (including `""`) becomes
`null`, and any falsy `disabled` becomes `false`. -/
theorem C4_legacy_normalization (b : JSValue)
    (hnc : ¬ ((truthy b && truthy (getFieldD b "name") && truthy (getFieldD b "buttonParamsJson")) = true))
    (hb : truthy b = true)
    (hid : truthy (getFieldD b "id") = true)
    (hti : truthy (getFieldD b "title") = true) :
    buildInteractiveButtons [b] =
      [.obj [("name", getButtonType b),
             ("buttonParamsJson", .str (jsonStringifyD (legacyButtonParams b)))]] := by
  have hnc2 : ¬ ((truthy (getFieldD b "name") && truthy (getFieldD b "buttonParamsJson")) = true) :=
    fun hA => hnc (by simp [hb, hA])
  simp [buildInteractiveButtons, normalizeButton, legacyButtonParams, hb, hid, hti, hnc2]

/-- Witness for C4_legacy_normalization on a concrete legacy entry. -/
theorem C4_legacy_normalization_witness :
    truthy (getFieldD (.obj [("id", .str "a"), ("title", .str "T")]) "id") = true ∧
    buildInteractiveButtons [.obj [("id", .str "a"), ("title", .str "T")]] =
      [.obj [("name", getButtonType (.obj [("id", .str "a"), ("title", .str "T")])),
             ("buttonParamsJson",
              .str (jsonStringifyD (legacyButtonParams (.obj [("id", .str "a"), ("title", .str "T")]))))]] :=
  ⟨rfl, C4_legacy_normalization (.obj [("id", .str "a"), ("title", .str "T")])
    (by decide) (by decide) (by decide) (by decide)⟩

/-- Claim C7: normalization is idempotent on already-canonical lists —
every entry with truthy `name` and `buttonParamsJson` fields is passed
through unchanged, so one more pass is a no-op. -/
theorem C7_normalize_idempotent (x : List JSValue)
    (h : ∀ b ∈ x, truthy b = true ∧ truthy (getFieldD b "name") = true ∧
                  truthy (getFieldD b "buttonParamsJson") = true) :
    buildInteractiveButtons (buildInteractiveButtons x) = buildInteractiveButtons x ∧
    buildInteractiveButtons x = x := by
  have hx : buildInteractiveButtons x = x := by
    have hb : ∀ b ∈ x, normalizeButton b = b := by
      intro b hbx
      obtain ⟨h1, h2, h3⟩ := h b hbx
      simp [normalizeButton, h1, h2, h3]
    calc buildInteractiveButtons x = x.map id := List.map_congr_left hb
    _ = x := List.map_id x
  exact ⟨by rw [hx]; exact hx, hx⟩

/-- Witness for C7_normalize_idempotent at a concrete canonical list. -/
theorem C7_normalize_idempotent_witness :
    buildInteractiveButtons (buildInteractiveButtons
      [.obj [("name", .str "quick_reply"), ("buttonParamsJson", .str "\x7b\x7d")]]) =
      buildInteractiveButtons
        [.obj [("name", .str "quick_reply"), ("buttonParamsJson", .str "\x7b\x7d")]] ∧
    buildInteractiveButtons
      [.obj [("name", .str "quick_reply"), ("buttonParamsJson", .str "\x7b\x7d")]] =
      [.obj [("name", .str "quick_reply"), ("buttonParamsJson", .str "\x7b\x7d")]] :=
  C7_normalize_idempotent
    [.obj [("name", .str "quick_reply"), ("buttonParamsJson", .str "\x7b\x7d")]]
    (by decide)

/-- Claim C10 (counterexample): an entry whose `id` is the falsy `""`
can still be converted — here the old-Baileys guard (truthy `buttonId`
and `buttonText`) matches, so the entry is *not* passed through
unchanged as the claim asserts for every entry with a falsy `id`. -/
theorem C10_counterexample :
    truthy (getFieldD (.obj [("id", .str ""), ("buttonId", .str "x"), ("buttonText", .str "T")]) "id")
      = false ∧
    buildInteractiveButtons [.obj [("id", .str ""), ("buttonId", .str "x"), ("buttonText", .str "T")]] ≠
      [.obj [("id", .str ""), ("buttonId", .str "x"), ("buttonText", .str "T")]] := by
  refine ⟨rfl, fun h => ?_⟩
  rw [(rfl :
    buildInteractiveButtons [.obj [("id", .str ""), ("buttonId", .str "x"), ("buttonText", .str "T")]] =
      [.obj [("name", .str "quick_reply"),
             ("buttonParamsJson",
              .str "\x7b\"id\":\"x\",\"title\":\"T\",\"subtitle\":null,\"disabled\":false\x7d")]])] at h
  injection h with h1 _
  injection h1 with h2
  injection h2 with h3 _
  injection h3 with h4 _
  exact absurd h4 (by decide)

/-- Claim C10 (amended): the shape tests of the normalizer are truthiness
tests — a falsy `id` or `title` blocks the simple-legacy rule, and a
falsy `buttonId` or `buttonText` blocks the old-Baileys rule; an entry
blocked this way is emitted verbatim provided the guards of the other
rules (canonical `name`+`buttonParamsJson`, resp. the other legacy guard) do
not match either. -/
theorem C10_truthiness_guards :
    (∀ b : JSValue,
      (truthy (getFieldD b "id") = false ∨ truthy (getFieldD b "title") = false) →
      ¬ ((truthy b && truthy (getFieldD b "name") && truthy (getFieldD b "buttonParamsJson")) = true) →
      ¬ ((truthy b && truthy (getFieldD b "buttonId") && truthy (getFieldD b "buttonText")) = true) →
      buildInteractiveButtons [b] = [b]) ∧
    (∀ b : JSValue,
      (truthy (getFieldD b "buttonId") = false ∨ truthy (getFieldD b "buttonText") = false) →
      ¬ ((truthy b && truthy (getFieldD b "name") && truthy (getFieldD b "buttonParamsJson")) = true) →
      ¬ ((truthy b && truthy (getFieldD b "id") && truthy (getFieldD b "title")) = true) →
      buildInteractiveButtons [b] = [b]) := by
  constructor
  · intro b hfalsy h1 h3
    rcases hfalsy with hf | hf <;>
      simp [buildInteractiveButtons, normalizeButton, h1, h3, hf]
  · intro b hfalsy h1 h2
    rcases hfalsy with hf | hf <;>
      simp [buildInteractiveButtons, normalizeButton, h1, h2, hf]

/-- Witness for C10_truthiness_guards: an entry with `id = ""` and a
truthy `title` (and no other recognized fields) is passed through. -/
theorem C10_truthiness_guards_witness :
    truthy (getFieldD (.obj [("id", .str ""), ("title", .str "T")]) "id") = false ∧
    buildInteractiveButtons [.obj [("id", .str ""), ("title", .str "T")]] =
      [.obj [("id", .str ""), ("title", .str "T")]] :=
  ⟨rfl, C10_truthiness_guards.1 (.obj [("id", .str ""), ("title", .str "T")])
    (by decide) (by decide) (by decide)⟩

lemma buttonErrors_ok_ne (b : JSValue) {i : Nat} {l : List VError}
    (hok : buttonErrors b i = .ok l) : b ≠ .null ∧ b ≠ .undefined := by
  constructor <;> rintro rfl <;> simp [buttonErrors] at hok

lemma buttonErrors_eq_ok (b : JSValue) (i : Nat)
    (h1 : b ≠ .null) (h2 : b ≠ .undefined) :
    buttonErrors b i = .ok (idErrsOf b i ++ titleErrsOf b i ++ typeErrsOf b i) := by
  cases b <;> first | exact absurd rfl h1 | exact absurd rfl h2 | rfl

lemma typeErrs_ne_nil (b : JSValue) (i : Nat) (h : typeRuleOk b = false) :
    typeErrsOf b i ≠ [] := by
  unfold typeRuleOk at h
  unfold typeErrsOf
  cases hgt : getButtonType b <;> rw [hgt] at h
  case' str s =>
    by_cases h1 : s = "cta_url"
    · subst h1
      simp at h
      simp [h]
    · by_cases h2 : s = "cta_call"
      · subst h2
        simp at h
        simp [h]
      · by_cases h3 : s = "cta_copy"
        · subst h3
          simp at h
          simp [h]
        · simp [h1, h2, h3] at h
  all_goals simp at h

lemma buttonErrs_ne_nil (b : JSValue) (i : Nat) (hv : violatesButtonRule b = true) :
    idErrsOf b i ++ titleErrsOf b i ++ typeErrsOf b i ≠ [] := by
  unfold violatesButtonRule at hv
  simp only [Bool.or_eq_true, Bool.not_eq_true'] at hv
  rcases hv with (hid | hti) | hty
  · simp [idErrsOf, hid]
  · simp [titleErrsOf, hti, List.append_eq_nil]
  · have := typeErrs_ne_nil b i hty
    simp [List.append_eq_nil]
    intro _ _
    exact this

lemma buttonErrorsList_length (bs : List JSValue) (i : Nat) (ls : List (List VError))
    (hok : buttonErrorsList bs i = .ok ls)
    (hv : ∀ b ∈ bs, violatesButtonRule b = true) :
    bs.length ≤ ls.flatten.length := by
  induction bs generalizing i ls with
  | nil =>
    simp [buttonErrorsList] at hok
    simp [← hok]
  | cons b bs ih =>
    unfold buttonErrorsList at hok
    cases hbe : buttonErrors b i <;> rw [hbe] at hok <;> try simp at hok
    case ok l =>
      cases hrest : buttonErrorsList bs (i + 1) <;> rw [hrest] at hok <;> try simp at hok
      case ok ls2 =>
        subst hok
        have hlen : bs.length ≤ ls2.flatten.length :=
          ih (i + 1) ls2 hrest (fun x hx => hv x (List.mem_cons_of_mem b hx))
        have hlne : l ≠ [] := by
          obtain ⟨h1, h2⟩ := buttonErrors_ok_ne b hbe
          have := buttonErrors_eq_ok b i h1 h2
          rw [this] at hbe
          injection hbe with he
          rw [← he]
          exact buttonErrs_ne_nil b i (hv b (List.mem_cons_self b bs))
        have h1l : 1 ≤ l.length := by
          cases l with
          | nil => exact absurd rfl hlne
          | cons _ _ => simp
        simp only [List.flatten_cons, List.length_append, List.length_cons]
        omega

/-- Claim C6: a validation pass aggregates at least one error per
rule-violating button — for a list of `n` buttons each violating one of
the per-button rules of the validator the returned (non-thrown) result holds
at least `n` errors, and `isValid` is `true` exactly when the error list
is empty. -/
theorem C6_validator_completeness (config : JSValue) (bs : List JSValue) (r : ValidationResult)
    (hok : validateInteractiveMessage config (.arr bs) = .ok r)
    (hv : ∀ b ∈ bs, violatesButtonRule b = true) :
    bs.length ≤ r.errors.length ∧ (r.isValid = true ↔ r.errors = []) := by
  unfold validateInteractiveMessage at hok
  cases hcb : getF config "body" <;> rw [hcb] at hok <;> try simp at hok
  case ok bodyv =>
    cases hl : buttonErrorsList bs 0 <;> rw [hl] at hok <;> try simp at hok
    case ok ls =>
      subst hok
      constructor
      · have := buttonErrorsList_length bs 0 ls hl hv
        simp only [List.length_append]
        omega
      · simp [List.isEmpty_iff]

lemma mem_bodyErrsOf_path {e : VError} {v : JSValue} (h : e ∈ bodyErrsOf v) :
    e.path = "body" := by
  unfold bodyErrsOf at h
  split at h
  · simp at h
  · simp at h
    subst h
    rfl

lemma mem_idErrsOf_path {e : VError} {b : JSValue} {i : Nat} (h : e ∈ idErrsOf b i) :
    e.path = "buttons[" ++ toString i ++ "].id" := by
  unfold idErrsOf at h
  split at h
  · simp at h
  · simp at h
    subst h
    rfl

lemma mem_titleErrsOf_path {e : VError} {b : JSValue} {i : Nat} (h : e ∈ titleErrsOf b i) :
    e.path = "buttons[" ++ toString i ++ "].title" := by
  unfold titleErrsOf at h
  split at h
  · simp at h
  · simp at h
    subst h
    rfl

lemma classified_call_ne (b : JSValue) (h : getButtonType b = .str "cta_call") :
    b ≠ .null ∧ b ≠ .undefined := by
  constructor <;> rintro rfl <;> simp [getButtonType, truthy, jsTypeof] at h

/-- Claim C2 (counterexample): the string `"123"` *matches* the
E.164-like pattern of the source (`[1-9]` then 1–14 digits), so a call-action button
with phoneNumber `"123"` validates with no error at all, contradicting
the claim (and spec §8) that `"123"` produces a phoneNumber error. -/
theorem C2_counterexample :
    validateInteractiveMessage (.obj [("body", .str "x")])
      (.arr [.obj [("id", .str "a"), ("title", .str "T"), ("phoneNumber", .str "123")]]) =
      .ok ⟨true, [], []⟩ ∧
    getButtonType (.obj [("id", .str "a"), ("title", .str "T"), ("phoneNumber", .str "123")]) =
      .str "cta_call" ∧
    matchesE164 "123" = true :=
  ⟨rfl, rfl, rfl⟩

/-- Claim C2 (amended): for a call-action button with a string
`phoneNumber`, the validator reports a `buttons[0].phoneNumber` error
exactly when the string fails the pattern `^\+?[1-9]\d\x7b1,14\x7d$`; so
`"+1234567890"`, `"+18005550123"` and also `"123"` (which matches the
pattern) produce no phoneNumber error, while `"abc"` and
`"invalid-phone"` produce one. -/
theorem C2_phone_error_iff (config b : JSValue) (s : String) (r : ValidationResult)
    (hok : validateInteractiveMessage config (.arr [b]) = .ok r)
    (hty : getButtonType b = .str "cta_call")
    (hp : getFieldD b "phoneNumber" = .str s) :
    ((∃ e ∈ r.errors, e.path = "buttons[0].phoneNumber") ↔ matchesE164 s = false) := by
  obtain ⟨hn1, hn2⟩ := classified_call_ne b hty
  have hte : typeErrsOf b 0 =
      (if matchesE164 s = true then ([] : List VError)
       else [⟨"buttons[0].phoneNumber", "Call button requires a valid phone number",
              .str "string (E.164 format)", .str s⟩]) := by
    have hpr : phoneRuleOk b = matchesE164 s := by
      unfold phoneRuleOk
      rw [hp]
      by_cases hs : s = ""
      · subst hs
        simp [truthy, jsToString, matchesE164]
      · simp [truthy, jsToString, hs]
    unfold typeErrsOf
    rw [hty]
    simp [hpr, hp]
    rfl
  have hbl : buttonErrorsList [b] 0 =
      .ok [idErrsOf b 0 ++ titleErrsOf b 0 ++ typeErrsOf b 0] := by
    unfold buttonErrorsList
    rw [buttonErrors_eq_ok b 0 hn1 hn2]
    rfl
  unfold validateInteractiveMessage at hok
  cases hcb : getF config "body" <;> rw [hcb] at hok <;> try simp at hok
  case ok bodyv =>
    cases hl : buttonErrorsList [b] 0 <;> rw [hl] at hok <;> try simp at hok
    case ok ls =>
      subst hok
      have hls : ls = [idErrsOf b 0 ++ titleErrsOf b 0 ++ typeErrsOf b 0] := by
        rw [hl] at hbl
        exact Except.ok.inj hbl
      subst hls
      have ha : arrayErrsOf (.arr [b]) = [] := rfl
      simp only [ha, List.flatten_cons, List.flatten_nil, List.append_nil, List.nil_append]
      by_cases hm : matchesE164 s = true
      · rw [hte, if_pos hm]
        simp only [List.append_nil]
        constructor
        · rintro ⟨e, hmem, hpath⟩
          simp only [List.mem_append] at hmem
          rcases hmem with hb | hid | hti
          · rw [mem_bodyErrsOf_path hb] at hpath
            exact absurd hpath (by decide)
          · rw [mem_idErrsOf_path hid] at hpath
            exact absurd hpath (by decide)
          · rw [mem_titleErrsOf_path hti] at hpath
            exact absurd hpath (by decide)
        · intro hfalse
          rw [hm] at hfalse
          exact absurd hfalse (by decide)
      · have hnm : ¬ (matchesE164 s = true) := hm
        rw [hte, if_neg hnm]
        constructor
        · intro _
          cases hx : matchesE164 s
          · rfl
          · exact absurd hx hm
        · intro _
          refine ⟨⟨"buttons[0].phoneNumber", "Call button requires a valid phone number",
                   .str "string (E.164 format)", .str s⟩, ?_, rfl⟩
          simp

/-- Witness for C2_phone_error_iff at the phone number "abc". -/
theorem C2_phone_error_iff_witness :
    validateInteractiveMessage (.obj [("body", .str "x")])
      (.arr [.obj [("id", .str "a"), ("title", .str "T"), ("phoneNumber", .str "abc")]]) =
      .ok ⟨false,
        [⟨"buttons[0].phoneNumber", "Call button requires a valid phone number",
          .str "string (E.164 format)", .str "abc"⟩], []⟩ ∧
    ((∃ e ∈ (⟨false,
        [⟨"buttons[0].phoneNumber", "Call button requires a valid phone number",
          .str "string (E.164 format)", .str "abc"⟩], []⟩ : ValidationResult).errors,
        e.path = "buttons[0].phoneNumber") ↔ matchesE164 "abc" = false) :=
  ⟨rfl, C2_phone_error_iff (.obj [("body", .str "x")])
    (.obj [("id", .str "a"), ("title", .str "T"), ("phoneNumber", .str "abc")]) "abc"
    ⟨false, [⟨"buttons[0].phoneNumber", "Call button requires a valid phone number",
      .str "string (E.164 format)", .str "abc"⟩], []⟩ rfl rfl rfl⟩

/-- Witness for C6_validator_completeness: two buttons, the first
missing its title, the second with an empty id, give two errors. -/
theorem C6_validator_completeness_witness :
    validateInteractiveMessage (.obj [("body", .str "m")])
      (.arr [.obj [("id", .str "a")], .obj [("id", .str ""), ("title", .str "T")]]) =
      .ok ⟨false,
        [⟨"buttons[0].title", "Button title is required and must be a string",
          .str "string", .undefined⟩,
         ⟨"buttons[1].id", "Button ID must be a non-empty string (max 64 chars)",
          .str "string (1-64 chars)", .str ""⟩], []⟩ ∧
    ((2 : Nat) ≤ (⟨false,
        [⟨"buttons[0].title", "Button title is required and must be a string",
          .str "string", .undefined⟩,
         ⟨"buttons[1].id", "Button ID must be a non-empty string (max 64 chars)",
          .str "string (1-64 chars)", .str ""⟩], []⟩ : ValidationResult).errors.length ∧
      ((⟨false,
        [⟨"buttons[0].title", "Button title is required and must be a string",
          .str "string", .undefined⟩,
         ⟨"buttons[1].id", "Button ID must be a non-empty string (max 64 chars)",
          .str "string (1-64 chars)", .str ""⟩], []⟩ : ValidationResult).isValid = true ↔
        (⟨false,
        [⟨"buttons[0].title", "Button title is required and must be a string",
          .str "string", .undefined⟩,
         ⟨"buttons[1].id", "Button ID must be a non-empty string (max 64 chars)",
          .str "string (1-64 chars)", .str ""⟩], []⟩ : ValidationResult).errors = [])) :=
  ⟨rfl, C6_validator_completeness (.obj [("body", .str "m")])
    [.obj [("id", .str "a")], .obj [("id", .str ""), ("title", .str "T")]]
    ⟨false,
      [⟨"buttons[0].title", "Button title is required and must be a string",
        .str "string", .undefined⟩,
       ⟨"buttons[1].id", "Button ID must be a non-empty string (max 64 chars)",
        .str "string (1-64 chars)", .str ""⟩], []⟩ rfl (by decide)⟩
